import Mathlib

/- Verification of the ShabdSetu bidirectional English-Marathi translation
core, a shallow embedding of src/Backend/main.py (class
BilingualTranslationService).  Python strings are modelled as Lean strings
manipulated through their character lists; Python dicts appear as
association lists in insertion order (key lookup is first match, which
coincides with dict lookup because every table has pairwise distinct keys);
the external HTTP translation backends are a parameter (a list of functions
returning Option String, none standing for every failure mode the source
catches); optional soft-imported libraries (indic_transliteration,
googletrans, langdetect, ...) are embedded as unavailable, which selects the
deterministic manual code paths of the source. -/

namespace ShabdSetu

/-- Whitespace characters recognised by the embedding of the Python string
methods strip and split: space, tab, newline, carriage return.  The inputs
the translation core handles contain no other whitespace code points. -/
def wsChar (c : Char) : Bool :=
  c = ' ' || c = '\t' || c = '\n' || c = '\r'

/-- Embedding of Python str.strip on character lists. -/
def stripList (l : List Char) : List Char :=
  ((l.dropWhile wsChar).reverse.dropWhile wsChar).reverse

/-- Embedding of Python str.strip. -/
def pyStrip (s : String) : String := String.mk (stripList s.data)

/-- Embedding of Python str.lower.  Char.toLower lowercases exactly the
ASCII letters, which agrees with Python str.lower on the ASCII and
Devanagari code points occurring in the translation tables (Devanagari has
no case). -/
def pyLower (s : String) : String := String.mk (s.data.map Char.toLower)

/-- Worker for the embedding of Python str.split with no separator:
split on runs of whitespace, discarding empty fragments. -/
def splitWsGo : List Char → List Char → List (List Char)
  | [], acc => if acc = [] then [] else [acc.reverse]
  | c :: rest, acc =>
    if wsChar c then
      (if acc = [] then splitWsGo rest [] else acc.reverse :: splitWsGo rest [])
    else splitWsGo rest (c :: acc)

/-- Embedding of Python str.split() (whitespace split, no empty words). -/
def pySplit (s : String) : List String := (splitWsGo s.data []).map String.mk

/-- Embedding of the Python substring test (sub in s) on character lists. -/
def isSubList (p : List Char) : List Char → Bool
  | [] => p.isEmpty
  | c :: rest => p.isPrefixOf (c :: rest) || isSubList p rest

/-- Embedding of the Python substring test (sub in s). -/
def pyContains (sub s : String) : Bool := isSubList sub.data s.data

/-- Worker for the embedding of Python str.replace, structurally recursive
on a fuel argument so that concrete instances reduce in the kernel; the
fuel is the length of the scanned list, which the scan never exhausts since
every step consumes at least one character. -/
def replListGo (p r : List Char) : Nat → List Char → List Char
  | _, [] => []
  | 0, l => l
  | fuel + 1, c :: rest =>
    if p ≠ [] ∧ p.isPrefixOf (c :: rest) = true then
      r ++ replListGo p r fuel ((c :: rest).drop p.length)
    else
      c :: replListGo p r fuel rest

/-- Embedding of Python str.replace on character lists: replace every
non-overlapping occurrence of p scanning left to right; replacement text is
not rescanned. -/
def replList (p r l : List Char) : List Char := replListGo p r l.length l

/-- Embedding of Python s.replace(p, r). -/
def pyReplace (s p r : String) : String := String.mk (replList p.data r.data s.data)

/-- First-match association-list lookup; on the tables of this file (whose
keys are pairwise distinct) it coincides with Python dict lookup. -/
def lookupAssoc (l : List (String × String)) (k : String) : Option String :=
  (l.find? (fun kv => kv.1 == k)).map (fun kv => kv.2)

/-- Stable insertion of a phrase pair into a list already sorted by
descending key length: the new pair goes before the first pair whose key is
not strictly longer.  Mirrors the stability of Python sorted with key=len
and reverse=True. -/
def insertByLen (p : String × String) : List (String × String) → List (String × String)
  | [] => [p]
  | q :: qs => if p.1.length < q.1.length then q :: insertByLen p qs else p :: q :: qs

/-- Stable sort by descending key length, the embedding of
sorted(items, key=lambda x: len(x[0]), reverse=True). -/
def sortByLenDesc : List (String × String) → List (String × String)
  | [] => []
  | q :: qs => insertByLen q (sortByLenDesc qs)

/-- Devanagari block test used throughout the source (U+0900 to U+097F). -/
def isDevanagariChar (c : Char) : Bool :=
  0x0900 ≤ c.toNat && c.toNat ≤ 0x097F

/-- Number of Devanagari code points of a string (the regex findall count of
detect_language, main.py lines 101-102). -/
def devanagariCount (s : String) : Nat := s.data.countP isDevanagariChar

/-- Devanagari presence test (the regex search of
advanced_language_detection, main.py lines 211-212). -/
def hasDevanagari (s : String) : Bool := s.data.any isDevanagariChar

/-- Manual romanized-to-Devanagari phrase table of romanized_to_devanagari (main.py lines 284-299), in insertion order. -/
def romanizedToDevanagariMap : List (String × String) := [
  ("namaskar", "नमस्कार"),
  ("namaste", "नमस्ते"),
  ("dhanyawad", "धन्यवाद"),
  ("majhe nav", "माझे नाव"),
  ("maza nav", "माझं नाव"),
  ("tumche nav", "तुमचं नाव"),
  ("tumhi kasa ahat", "तुम्ही कसे आहात"),
  ("kasa ahat", "कसे आहात"),
  ("mi programming shikat ahe", "मी प्रोग्रामिंग शिकत आहे"),
  ("programming shikat", "प्रोग्रामिंग शिकत"),
  ("aahe", "आहे"),
  ("ahe", "आहे"),
  ("ahat", "आहात"),
  ("kasa", "कसा"),
  ("kay", "काय"),
  ("tumhi", "तुम्ही"),
  ("mi", "मी"),
  ("mala", "मला"),
  ("hoye", "होय"),
  ("nahi", "नाही"),
  ("programming", "प्रोग्रामिंग"),
  ("computer", "संगणक"),
  ("software", "सॉफ्टवेअर")
]

/-- English-to-Marathi phrase table of translate_with_dictionary (main.py lines 920-966), in insertion order. -/
def enToMr : List (String × String) := [
  ("hello", "नमस्कार"),
  ("hi", "नमस्कार"),
  ("hello how are you", "नमस्कार तुम्ही कसे आहात"),
  ("how are you", "तुम्ही कसे आहात"),
  ("how are you?", "तुम्ही कसे आहात?"),
  ("i am fine", "मी ठीक आहे"),
  ("i am good", "मी चांगला आहे"),
  ("good morning", "सुप्रभात"),
  ("good evening", "शुभ संध्या"),
  ("good night", "शुभ रात्री"),
  ("good afternoon", "शुभ दुपार"),
  ("thank you", "धन्यवाद"),
  ("thank you so much", "खूप खूप धन्यवाद"),
  ("thanks", "धन्यवाद"),
  ("please", "कृपया"),
  ("yes", "होय"),
  ("no", "नाही"),
  ("sorry", "माफ करा"),
  ("excuse me", "माफ करा"),
  ("what is your name", "तुमचे नाव काय आहे"),
  ("what is your name?", "तुमचे नाव काय आहे?"),
  ("my name is", "माझे नाव"),
  ("nice to meet you", "तुम्हाला भेटून आनंद झाला"),
  ("goodbye", "निरोप"),
  ("bye", "निरोप"),
  ("see you later", "पुन्हा भेटू"),
  ("where", "कुठे"),
  ("what", "काय"),
  ("when", "केव्हा"),
  ("how", "कसे"),
  ("why", "का"),
  ("water", "पाणी"),
  ("food", "अन्न"),
  ("help", "मदत"),
  ("i need help", "मला मदत हवी"),
  ("where is the bathroom", "स्नानगृह कुठे आहे"),
  ("how much", "किती"),
  ("how much?", "किती?"),
  ("today", "आज"),
  ("tomorrow", "उद्या"),
  ("yesterday", "काल"),
  ("i want to learn programming", "मला प्रोग्रामिंग शिकायचे आहे"),
  ("i love programming", "मला प्रोग्रामिंग आवडते"),
  ("computer", "संगणक"),
  ("software", "सॉफ्टवेअर")
]

/-- Marathi-to-English phrase table of translate_with_dictionary (main.py lines 969-1009), in insertion order. -/
def mrToEn : List (String × String) := [
  ("नमस्कार", "hello"),
  ("तुम्ही कसे आहात", "how are you"),
  ("तुम्ही कसे आहात?", "how are you?"),
  ("मी काम करत आहे", "I am working"),
  ("मी शाळेत जातोय", "I am going to school"),
  ("मी घरी जातोय", "I am going home"),
  ("मला प्रोग्रामिंग शिकायचे आहे", "I want to learn programming"),
  ("मला प्रोग्रामिंग आवडते", "I love programming"),
  ("सुप्रभात", "good morning"),
  ("शुभ संध्या", "good evening"),
  ("शुभ रात्री", "good night"),
  ("धन्यवाद", "thank you"),
  ("होय", "yes"),
  ("नाही", "no"),
  ("माफ करा", "sorry"),
  ("कृपया", "please"),
  ("तुमचे नाव काय आहे", "what is your name"),
  ("तुमचे नाव काय आहे?", "what is your name?"),
  ("माझे नाव", "my name is"),
  ("तुम्हाला भेटून आनंद झाला", "nice to meet you"),
  ("निरोप", "goodbye"),
  ("पुन्हा भेटू", "see you later"),
  ("कुठे", "where"),
  ("काय", "what"),
  ("केव्हा", "when"),
  ("कसे", "how"),
  ("का", "why"),
  ("पाणी", "water"),
  ("अन्न", "food"),
  ("मदत", "help"),
  ("मला मदत हवी", "i need help"),
  ("स्नानगृह कुठे आहे", "where is the bathroom"),
  ("किती", "how much"),
  ("किती?", "how much?"),
  ("आज", "today"),
  ("उद्या", "tomorrow"),
  ("काल", "yesterday"),
  ("संगणक", "computer"),
  ("सॉफ्टवेअर", "software")
]

/-- Romanized-Marathi-to-English table of translate_with_dictionary (main.py lines 1012-1116), in insertion order. -/
def romanizedMrToEn : List (String × String) := [
  ("namaskar", "hello"),
  ("namaste", "hello"),
  ("dhanyawad", "thank you"),
  ("dhanyabad", "thank you"),
  ("kasa ahat", "how are you"),
  ("kasa ahes", "how are you"),
  ("kasa kay", "how are you"),
  ("tumhi kasa ahat", "how are you"),
  ("tumhi kase ahat", "how are you"),
  ("tumche nav kay ahe", "what is your name"),
  ("majhe nav", "my name is"),
  ("maza nav", "my name is"),
  ("mi kaam karat ahe", "I am working"),
  ("mi school la jatoy", "I am going to school"),
  ("mi ghari jatoy", "I am going home"),
  ("mi khana khattoy", "I am eating food"),
  ("mala programming shikayche ahe", "I want to learn programming"),
  ("mala programming shikayche", "I want to learn programming"),
  ("mi programming shikat ahe", "I am learning programming"),
  ("programming shikat", "learning programming"),
  ("pani", "water"),
  ("anna", "food"),
  ("khana", "food"),
  ("jevan", "meal"),
  ("madad", "help"),
  ("maddat", "help"),
  ("kuthe", "where"),
  ("kay", "what"),
  ("kasa", "how"),
  ("kase", "how"),
  ("kiti", "how much"),
  ("kevha", "when"),
  ("kon", "who"),
  ("hoye", "yes"),
  ("hoy", "yes"),
  ("nahi", "no"),
  ("maaf kara", "sorry"),
  ("krupa kara", "please"),
  ("aaj", "today"),
  ("udya", "tomorrow"),
  ("kal", "yesterday"),
  ("ratri", "night"),
  ("sakal", "morning"),
  ("sandhya", "evening"),
  ("dupari", "afternoon"),
  ("ghar", "home"),
  ("ghara", "home"),
  ("school", "school"),
  ("kaam", "work"),
  ("nokri", "job"),
  ("paisa", "money"),
  ("vel", "time"),
  ("mitra", "friend"),
  ("family", "kutumb"),
  ("aai", "mother"),
  ("baba", "father"),
  ("bhau", "brother"),
  ("bahin", "sister"),
  ("tumhi", "you"),
  ("tumi", "you"),
  ("mi", "I"),
  ("amhi", "we"),
  ("te", "they"),
  ("tyanche", "their"),
  ("tyachi", "his/her"),
  ("mala", "to me"),
  ("tula", "to you"),
  ("aahe", "is"),
  ("ahe", "is"),
  ("ahat", "are"),
  ("ahes", "are"),
  ("chya", "of"),
  ("madhe", "in"),
  ("var", "on"),
  ("pasun", "from"),
  ("saathi", "for"),
  ("barobar", "with"),
  ("shivay", "without"),
  ("pudhe", "ahead"),
  ("maghe", "behind"),
  ("varti", "above"),
  ("khali", "below"),
  ("jatoy", "going"),
  ("yetoy", "coming"),
  ("karat", "doing"),
  ("khattoy", "eating"),
  ("pitoy", "drinking"),
  ("boltoy", "speaking"),
  ("aikttoy", "listening"),
  ("baghtoy", "watching"),
  ("vachtoy", "reading"),
  ("lihtoy", "writing"),
  ("zoptoy", "sleeping"),
  ("uthttoy", "waking up"),
  ("chaltoy", "walking"),
  ("dhavttoy", "running"),
  ("hasttoy", "laughing"),
  ("rudttoy", "crying"),
  ("shikat", "learning"),
  ("shikayche", "want to learn"),
  ("computer", "computer"),
  ("software", "software"),
  ("programming", "programming")
]

/-- Romanized Marathi clue words of detect_language (main.py lines 120-132); the duplicate entry pudhe is kept as in the source. -/
def marathiWordsList : List String := [
  "namaskar",
  "namaste",
  "dhanyawad",
  "dhanyabad",
  "kasa",
  "kase",
  "kay",
  "kuthe",
  "kiti",
  "majhe",
  "tumche",
  "ahe",
  "ahes",
  "ahat",
  "pau",
  "pahije",
  "pani",
  "anna",
  "madad",
  "maddat",
  "hoye",
  "nahi",
  "krupa",
  "maaf",
  "kara",
  "pudhil",
  "maga",
  "pudhe",
  "magun",
  "vel",
  "aaj",
  "udya",
  "kal",
  "sandhya",
  "ratri",
  "sakal",
  "dupari",
  "tumi",
  "tumhi",
  "mi",
  "amhi",
  "tyanche",
  "tyachi",
  "mala",
  "tula",
  "aahe",
  "aahet",
  "aahat",
  "navyane",
  "juna",
  "mottha",
  "chota",
  "ghara",
  "ghar",
  "gaon",
  "shahar",
  "rasta",
  "dukan",
  "school",
  "nav",
  "saathi",
  "barobar",
  "shivay",
  "madhe",
  "var",
  "pasun",
  "chya",
  "pudhe",
  "maghe",
  "varti",
  "khali",
  "jevan",
  "kaam",
  "shikat",
  "programming",
  "computer",
  "software",
  "engineering"
]

/-- Romanized Marathi clue phrases of detect_language (main.py lines 135-140). -/
def marathiPhrasesList : List String := [
  "tumhi kasa ahat",
  "tumhi kase ahat",
  "kasa ahat",
  "kase ahat",
  "majhe nav",
  "maza nav",
  "tumche nav",
  "dhanyawad tumhi",
  "namaskar tumhi",
  "maaf kara",
  "krupa kara",
  "programming shikat",
  "mala programming shikayche",
  "mi programming shikto",
  "computer chalav"
]

/-- Common English words of detect_language (main.py lines 182-183). -/
def englishWordsList : List String := [
  "hello",
  "hi",
  "how",
  "are",
  "you",
  "what",
  "where",
  "thank",
  "please",
  "yes",
  "no",
  "sorry",
  "good",
  "morning",
  "evening",
  "night",
  "name",
  "nice",
  "today",
  "tomorrow"
]

/-- Garbled-encoding test shared by detect_language (main.py lines 95-98)
and the Marathi branch of translate_with_dictionary (lines 1170-1172):
the text contains a question mark and removing every question mark and
stripping leaves the empty string. -/
def garbled (text : String) : Bool :=
  pyContains "?" text && (pyStrip (pyReplace text "?" "") == "")

/-- Embedding of BilingualTranslationService.detect_language (main.py lines
90-204).  The source scans for Devanagari twice (a regex findall count and
an explicit code-point loop over the same range); both scans are the single
devanagariCount test here.  The floating-point comparison
marathi_ratio >= 0.30 is embedded as 10 * count >= 3 * words.length, which
agrees with the Python comparison for every word count arising here.  After
the Marathi heuristics fail, the English word-count branch, the English
regex-pattern branch and the default all return en, embedded as the final
else. -/
def detectLanguage (text : String) : String :=
  if garbled text then "mr"
  else if devanagariCount text > 0 then "mr"
  else
    let textLower := pyStrip (pyLower text)
    let words := pySplit textLower
    let mwCount := marathiWordsList.countP (fun w => pyContains w textLower)
    if marathiPhrasesList.any (fun ph => pyContains ph textLower) then "mr"
    else if words.length == 1 && marathiWordsList.contains textLower then "mr"
    else if 2 ≤ words.length then
      (if decide (0 < mwCount) && decide (3 * words.length ≤ 10 * mwCount) &&
          decide (2 ≤ mwCount) then "mr"
       else "en")
    else if 1 ≤ mwCount then "mr"
    else "en"

/-- Embedding of advanced_language_detection (main.py lines 206-236): the
Devanagari regex search, then the optional langdetect library (a
soft-imported external collaborator, embedded as unavailable), then the
detect_language fallback. -/
def advancedLanguageDetection (text : String) : String :=
  if hasDevanagari text then "mr" else detectLanguage text

/-- Embedding of romanized_to_devanagari (main.py lines 271-307, the live
definition with the 23-entry table; an unreachable duplicate with a larger
table sits after the return of translate_with_multiple_variants).  The
indic_transliteration branch is a soft-imported external collaborator,
embedded as unavailable, so the manual mapping runs: lowercase the text and
apply str.replace for every table entry, longest key first (stable on
ties). -/
def romanizedToDevanagari (text : String) : String :=
  (sortByLenDesc romanizedToDevanagariMap).foldl
    (fun acc kv => pyReplace acc kv.1 kv.2) (pyLower text)

/-- Embedding of comprehensive_transliteration (main.py lines 238-269):
the variant list starts with the original text; the indic_transliteration
schemes are unavailable; the manual conversion is appended when it is new. -/
def comprehensiveTransliteration (text : String) : List String :=
  let variants := [text]
  let manual := romanizedToDevanagari text
  if manual != text && !(variants.contains manual) then variants ++ [manual]
  else variants

/-- An external translation backend: the call shape of the
translate_with_* provider methods, with none standing for every failure
the source catches (non-2xx status, malformed payload, timeout, thrown
exception, unavailable library). -/
abbrev Provider := String → String → String → Option String

/-- The translation cache of the service (self.translation_cache), an
insertion-ordered map from cache keys to translated text. -/
abbrev Cache := List (String × String)

/-- Error phrases of the acceptance filter of
translate_with_multiple_variants (main.py lines 574-575). -/
def errorPhrases : List String :=
  ["error", "failed", "please select", "distinct languages"]

/-- Acceptance filter applied to a raw provider result for a given variant
(main.py lines 571-575): the result is truthy, its stripped form differs
from the stripped variant, the stripped form is non-empty, and the
lowercased result contains no error phrase.  No script-based validation
occurs here. -/
def acceptsResult (variant result : String) : Bool :=
  result != "" && pyStrip result != pyStrip variant &&
    decide (0 < (pyStrip result).length) &&
    errorPhrases.all (fun ph => !(pyContains ph (pyLower result)))

/-- One pass of the inner provider loop of translate_with_multiple_variants
over a single variant: the first provider whose result passes the
acceptance filter wins; failures and rejected results continue the loop. -/
def tryProviders (providers : List Provider) (variant src tgt : String) :
    Option String :=
  providers.findSome? (fun m =>
    (m variant src tgt).bind (fun r =>
      if acceptsResult variant r then some r else none))

/-- Embedding of the live translate_with_multiple_variants (main.py lines
549-582; it shadows an earlier definition of the same name at lines
309-421): for each transliteration variant in order, try every provider in
order and return the first accepted result. -/
def translateWithMultipleVariants (providers : List Provider)
    (text src tgt : String) : Option String :=
  (comprehensiveTransliteration text).findSome? (fun v =>
    tryProviders providers v src tgt)

/-- Message returned by the Marathi dictionary branch on garbled input
(main.py line 1172). -/
def garbledMsg : String :=
  "Unable to translate garbled text. Please ensure proper UTF-8 encoding for Devanagari script."

/-- Normalization applied by translate_with_dictionary (main.py line 1154):
text.lower().strip(). -/
def dictNormalize (text : String) : String := pyStrip (pyLower text)

/-- Stage (b) of the Marathi-to-English dictionary lookup: exact Devanagari
match on the raw text (main.py lines 1175-1176). -/
def mrEnExact (text : String) : Option String := lookupAssoc mrToEn text

/-- Stage (c): exact romanized match on the normalized text (main.py lines
1179-1180). -/
def mrEnRomExact (textLower : String) : Option String :=
  lookupAssoc romanizedMrToEn textLower

/-- Stage (d): for raw text of at least two words, the first
Devanagari table entry, in insertion order, whose key has at least two
words and occurs in the raw text (main.py lines 1183-1186). -/
def mrEnDevSubphrase (text : String) : Option String :=
  if 2 ≤ (pySplit text).length then
    (mrToEn.find? (fun kv =>
      pyContains kv.1 text && decide (2 ≤ (pySplit kv.1).length))).map
      (fun kv => kv.2)
  else none

/-- Stage (e): for normalized text of at least two words, the first
romanized table entry, longest key first, whose key has at least two words
and occurs in the normalized text (main.py lines 1189-1193). -/
def mrEnRomSubphrase (textLower : String) : Option String :=
  if 2 ≤ (pySplit textLower).length then
    ((sortByLenDesc romanizedMrToEn).find? (fun kv =>
      decide (2 ≤ (pySplit kv.1).length) && pyContains kv.1 textLower)).map
      (fun kv => kv.2)
  else none

/-- Per-word resolution of the word-by-word stage (main.py lines 1201-1215):
exact romanized lookup, else the first table entry, in insertion order,
whose key has length at least four and is a substring of the word or
contains it. -/
def resolveWord (w : String) : Option String :=
  match lookupAssoc romanizedMrToEn w with
  | some e => some e
  | none =>
    (romanizedMrToEn.find? (fun kv =>
      decide (4 ≤ kv.1.length) &&
        (pyContains w kv.1 || pyContains kv.1 w))).map (fun kv => kv.2)

/-- Stage (f), word-by-word substitution (main.py lines 1196-1221): for
normalized text of at least three words, substitute each word by its
resolution (keeping unresolved words) and accept only when at least one
word resolved and the resolved count reaches 70 percent of the word count.
The floating-point comparison found >= len(words) * 0.7 is embedded as
7 * words.length <= 10 * found, which agrees with the Python comparison for
every word count arising here. -/
def mrEnWordByWord (textLower : String) : Option String :=
  let words := pySplit textLower
  if 3 ≤ words.length then
    let found := words.countP (fun w => (resolveWord w).isSome)
    if decide (0 < found) && decide (7 * words.length ≤ 10 * found) then
      some (String.intercalate " "
        (words.map (fun w => (resolveWord w).getD w)))
    else none
  else none

/-- Embedding of translate_with_dictionary (main.py lines 915-1227).
English-to-Marathi is an exact lookup on the normalized text; the
Marathi-to-English branch checks the garbled guard and then stages (b) to
(f) in order; every other language pair returns none.  The table
en_to_romanized_mr of the source (lines 1119-1152) is defined there but
never consulted and is not embedded. -/
def translateWithDictionary (text src tgt : String) : Option String :=
  let textLower := dictNormalize text
  if src = "en" ∧ tgt = "mr" then
    lookupAssoc enToMr textLower
  else if src = "mr" ∧ tgt = "en" then
    if garbled text then some garbledMsg
    else
      ((((mrEnExact text).orElse fun _ =>
          mrEnRomExact textLower).orElse fun _ =>
            mrEnDevSubphrase text).orElse fun _ =>
              mrEnRomSubphrase textLower).orElse fun _ =>
                mrEnWordByWord textLower
  else none

/-- A resolved translation (the dict returned by
BilingualTranslationService.translate). -/
structure TransResult where
  translated_text : String
  source_language : String
  target_language : String
  method : String
deriving DecidableEq, Repr

/-- Source-language resolution of translate (main.py lines 1238-1245). -/
def resolveSource (srcLang text : String) : String :=
  if srcLang = "auto" then advancedLanguageDetection text
  else if srcLang = "English" then "en"
  else if srcLang = "Marathi" then "mr"
  else srcLang

/-- Target-language resolution of translate (main.py lines 1248-1256): auto
becomes the complement of the resolved source, the names English and
Marathi are coerced, anything else passes through. -/
def resolveTarget (tgtLang resolvedSrc : String) : String :=
  if tgtLang = "auto" then (if resolvedSrc = "mr" then "en" else "mr")
  else if tgtLang = "English" then "en"
  else if tgtLang = "Marathi" then "mr"
  else tgtLang

/-- Cache key of translate (main.py line 1261):
f-string text.lower()_src_tgt. -/
def cacheKey (text src tgt : String) : String :=
  pyLower text ++ "_" ++ src ++ "_" ++ tgt

/-- The apostrophe character, used by the fallback message. -/
def apos : String := String.singleton (Char.ofNat 39)

/-- Fallback message of translate (main.py line 1301). -/
def fallbackMessage (text : String) : String :=
  "Translation not available for " ++ apos ++ text ++ apos ++
    ". Try common phrases like " ++ apos ++ "hello" ++ apos ++ ", " ++
    apos ++ "thank you" ++ apos ++ ", " ++ apos ++ "namaskar" ++ apos ++
    ", or " ++ apos ++ "dhanyawad" ++ apos ++ "."

/-- Embedding of BilingualTranslationService.translate (main.py lines
1229-1313).  The state (the translation cache) is passed and returned
explicitly; none embeds the ValueError raised on whitespace-only input
(surfaced as an HTTP error at the boundary); every other path returns a
result, never an exception.  A cache write is a cons, which the source
guarantees is a fresh key because a present key is returned from the cache
check. -/
def translate (providers : List Provider) (cache : Cache)
    (text srcLang tgtLang : String) : Option (TransResult × Cache) :=
  let t := pyStrip text
  if t = "" then none
  else
    let s := resolveSource srcLang t
    let g := resolveTarget tgtLang s
    let key := cacheKey t s g
    match lookupAssoc cache key with
    | some v =>
      some ({ translated_text := v, source_language := s,
              target_language := g, method := "cache" }, cache)
    | none =>
      match translateWithDictionary t s g with
      | some d =>
        some ({ translated_text := d, source_language := s,
                target_language := g, method := "dictionary" },
              (key, d) :: cache)
      | none =>
        match translateWithMultipleVariants providers t s g with
        | some a =>
          some ({ translated_text := a, source_language := s,
                  target_language := g, method := "comprehensive_api" },
                (key, a) :: cache)
        | none =>
          some ({ translated_text := fallbackMessage t,
                  source_language := s, target_language := g,
                  method := "fallback_message" }, cache)


/-- A provider stub returning a fixed ASCII-only translation, used to probe
the acceptance filter of the provider chain. -/
def asciiProviderStub : Provider := fun _ _ _ => some "good day"

/-- Modelled from the spec: the normalization the specification describes
for dictionary keys, namely trim, lowercase and collapse internal
whitespace.  Stated only for comparison with the normalization the source
actually performs (dictNormalize, which never collapses whitespace). -/
def specNormalize (text : String) : String :=
  String.intercalate " " (pySplit (pyLower text))

/-- Modelled from the spec: membership of a method string in the
specification resolution-method set, namely dictionary, cache,
provider:name for some provider name, or fallback.  Stated only for
comparison with the method strings the source actually produces. -/
def specMethodOk (m : String) : Prop :=
  m = "dictionary" ∨ m = "cache" ∨
    List.isPrefixOf "provider:".data m.data = true ∨ m = "fallback"

/-- Looking a key up in an association list extended with that key finds the
new value. -/
theorem lookupAssoc_cons_self (k v : String) (l : List (String × String)) :
    lookupAssoc ((k, v) :: l) k = some v := by
  simp [lookupAssoc, List.find?]

/-- If any list element satisfies the predicate, the countP is positive. -/
theorem countP_pos_of_any {l : List Char} {p : Char → Bool}
    (h : l.any p = true) : 0 < l.countP p := by
  induction l with
  | nil => simp at h
  | cons c rest ih =>
    rw [List.any_cons] at h
    rcases Bool.or_eq_true_iff.mp h with hc | hrest
    · simp [List.countP_cons, hc]
    · have hpos := ih hrest
      rw [List.countP_cons]
      omega

/-- Replacing a question mark by nothing in an all-question-mark character
list leaves nothing, whatever sufficient fuel is supplied. -/
theorem replListGo_qm_all {fuel : Nat} {l : List Char}
    (h : ∀ c ∈ l, c = ('?' : Char)) (hf : l.length ≤ fuel) :
    replListGo ['?'] [] fuel l = [] := by
  induction fuel generalizing l with
  | zero =>
    have hl : l = [] := List.eq_nil_of_length_eq_zero (Nat.le_zero.mp hf)
    rw [hl, replListGo]
  | succ fuel ih =>
    cases l with
    | nil => rw [replListGo]
    | cons c rest =>
      have hc : c = '?' := h c (List.mem_cons_self c rest)
      rw [replListGo, if_pos]
      · have hdrop : (c :: rest).drop (['?'] : List Char).length = rest := by
          simp
        rw [hdrop,
          ih (fun d hd => h d (List.mem_cons_of_mem c hd))
            (by simp only [List.length_cons] at hf; omega)]
        rfl
      · subst hc
        exact ⟨by simp, by simp [List.isPrefixOf]⟩

/-- Replacing a question mark by nothing in an all-question-mark character
list leaves nothing. -/
theorem replList_qm_all {l : List Char} (h : ∀ c ∈ l, c = ('?' : Char)) :
    replList ['?'] [] l = [] :=
  replListGo_qm_all h (Nat.le_refl _)

/-- C2.  Every input containing at least one Devanagari code point is
classified as Marathi by both detect_language and
advanced_language_detection; the Devanagari scan fires before every other
heuristic that could answer differently. -/
theorem devanagari_forces_marathi (text : String)
    (h : hasDevanagari text = true) :
    detectLanguage text = "mr" ∧ advancedLanguageDetection text = "mr" := by
  constructor
  · have hc : 0 < devanagariCount text := countP_pos_of_any h
    unfold detectLanguage
    by_cases hg : garbled text
    · simp [hg]
    · simp [hg, hc]
  · unfold advancedLanguageDetection
    simp [h]

/-- Witness for C2 on mixed-script input: a sentence that also contains
Latin words and English clue words is still classified as Marathi. -/
theorem devanagari_forces_marathi_witness :
    detectLanguage "hello how are you नमस्कार" = "mr" ∧
      advancedLanguageDetection "hello how are you नमस्कार" = "mr" :=
  devanagari_forces_marathi "hello how are you नमस्कार" (by decide)

/-- C10.  A non-empty input consisting solely of question marks trips the
garbled-encoding guard of detect_language and is classified as Marathi,
although it contains neither a Devanagari code point nor a Marathi clue
word. -/
theorem question_marks_detected_marathi (text : String)
    (hne : text ≠ "") (hall : ∀ c ∈ text.data, c = ('?' : Char)) :
    detectLanguage text = "mr" := by
  have hdata : text.data ≠ [] := by
    intro hnil
    apply hne
    cases text with
    | mk l =>
      simp only [String.data] at hnil
      simp [hnil]
  have hg : garbled text = true := by
    unfold garbled pyContains pyReplace pyStrip
    cases hd : text.data with
    | nil => exact absurd hd hdata
    | cons c rest =>
      have hc : c = '?' := hall c (by rw [hd]; exact List.mem_cons_self c rest)
      have h1 : isSubList "?".data (c :: rest) = true := by
        rw [isSubList]
        subst hc
        simp [List.isPrefixOf]
      have h2 : replList "?".data "".data (c :: rest) = [] := by
        have hx : ∀ d ∈ c :: rest, d = ('?' : Char) := by
          rw [← hd]; exact hall
        exact replList_qm_all hx
      rw [h1, h2]
      decide
  unfold detectLanguage
  simp [hg]

/-- Witness for C10 at the concrete input of three question marks. -/
theorem question_marks_detected_marathi_witness :
    detectLanguage "???" = "mr" :=
  question_marks_detected_marathi "???" (by decide) (by decide)

/-- Replacing a pattern that does not occur in a character list leaves the
list unchanged, whatever fuel is supplied. -/
theorem replListGo_eq_self_of_not_sub {p r : List Char} {fuel : Nat}
    {l : List Char} (h : isSubList p l = false) : replListGo p r fuel l = l := by
  induction fuel generalizing l with
  | zero =>
    cases l with
    | nil => rw [replListGo]
    | cons c rest =>
      rw [replListGo]
      exact fun hx => List.noConfusion hx
  | succ fuel ih =>
    cases l with
    | nil => rw [replListGo]
    | cons c rest =>
      rw [isSubList, Bool.or_eq_false_iff] at h
      obtain ⟨h1, h2⟩ := h
      rw [replListGo, if_neg]
      · rw [ih h2]
      · rintro ⟨hp, hpre⟩
        rw [h1] at hpre
        exact Bool.false_ne_true hpre

/-- Replacing a pattern that does not occur in a character list leaves the
list unchanged. -/
theorem replList_eq_self_of_not_sub {p r l : List Char}
    (h : isSubList p l = false) : replList p r l = l :=
  replListGo_eq_self_of_not_sub h

/-- Replacing a pattern that does not occur in a string leaves the string
unchanged. -/
theorem pyReplace_eq_self {s k v : String} (h : pyContains k s = false) :
    pyReplace s k v = s := by
  unfold pyContains at h
  unfold pyReplace
  rw [replList_eq_self_of_not_sub h]

/-- Membership after stable insertion comes from the inserted pair or the
original list. -/
theorem mem_insertByLen {x p : String × String} {l : List (String × String)}
    (h : x ∈ insertByLen p l) : x = p ∨ x ∈ l := by
  induction l with
  | nil =>
    rw [insertByLen] at h
    exact Or.inl (List.mem_singleton.mp h)
  | cons q qs ih =>
    rw [insertByLen] at h
    by_cases hc : p.1.length < q.1.length
    · rw [if_pos hc] at h
      rcases List.mem_cons.mp h with h | h
      · exact Or.inr (List.mem_cons.mpr (Or.inl h))
      · rcases ih h with h | h
        · exact Or.inl h
        · exact Or.inr (List.mem_cons.mpr (Or.inr h))
    · rw [if_neg hc] at h
      rcases List.mem_cons.mp h with h | h
      · exact Or.inl h
      · exact Or.inr h

/-- The length-sorted table has the same members as the original table. -/
theorem mem_sortByLenDesc {x : String × String} {l : List (String × String)}
    (h : x ∈ sortByLenDesc l) : x ∈ l := by
  induction l with
  | nil => rw [sortByLenDesc] at h; exact absurd h (List.not_mem_nil x)
  | cons q qs ih =>
    rw [sortByLenDesc] at h
    rcases mem_insertByLen h with h | h
    · exact List.mem_cons.mpr (Or.inl h)
    · exact List.mem_cons.mpr (Or.inr (ih h))

/-- A fold of replacements none of whose patterns occur in the string is the
identity. -/
theorem foldl_pyReplace_id {m : List (String × String)} {s : String}
    (h : ∀ kv ∈ m, pyContains kv.1 s = false) :
    m.foldl (fun acc kv => pyReplace acc kv.1 kv.2) s = s := by
  induction m with
  | nil => rfl
  | cons kv rest ih =>
    rw [List.foldl_cons, pyReplace_eq_self (h kv (List.mem_cons_self kv rest))]
    exact ih (fun kv2 h2 => h kv2 (List.mem_cons_of_mem kv h2))

/-- Counterexample to C6 as stated.  The romanizer substitutes mapped
phrases by plain substring replacement with no word-boundary test: the
mapped phrase mi occurring strictly inside the longer unmapped word
misunderstanding is replaced, corrupting the word. -/
theorem romanizer_no_word_boundary_counterexample :
    romanizedToDevanagari "misunderstanding" = "मीsunderstanding" ∧
      (romanizedToDevanagariMap.map (fun kv => kv.1)).contains "mi" = true ∧
      (romanizedToDevanagariMap.map (fun kv => kv.1)).contains
        "misunderstanding" = false := by
  refine ⟨?_, by decide, by decide⟩
  decide

/-- C6 amended.  The romanizer performs plain substring replacement of the
mapped phrases, longest key first, on the lowercased text, with no
word-boundary restriction, so a mapped phrase inside a longer unmapped word
is replaced; text in which no mapped phrase occurs at all passes through
unchanged apart from lowercasing. -/
theorem romanizer_passthrough (text : String)
    (h : ∀ kv ∈ romanizedToDevanagariMap,
      pyContains kv.1 (pyLower text) = false) :
    romanizedToDevanagari text = pyLower text := by
  unfold romanizedToDevanagari
  exact foldl_pyReplace_id (fun kv hkv => h kv (mem_sortByLenDesc hkv))

/-- Witness for the amended C6 at a concrete phrase containing no mapped
romanized phrase. -/
theorem romanizer_passthrough_witness :
    romanizedToDevanagari "xyz qq" = "xyz qq" := by
  have h := romanizer_passthrough "xyz qq" (by decide)
  rw [h]
  decide

/-- A successful findSome? comes from some list element. -/
theorem exists_mem_of_findSome {α β : Type} {l : List α} {f : α → Option β}
    {b : β} (h : l.findSome? f = some b) : ∃ a ∈ l, f a = some b := by
  induction l with
  | nil => rw [List.findSome?] at h; exact absurd h (by simp)
  | cons x xs ih =>
    rw [List.findSome?] at h
    cases hx : f x with
    | some y =>
      rw [hx] at h
      exact ⟨x, List.mem_cons_self x xs, by rw [hx]; exact h⟩
    | none =>
      rw [hx] at h
      rcases ih h with ⟨a, ha, hfa⟩
      exact ⟨a, List.mem_cons_of_mem x ha, hfa⟩

/-- Counterexample to C1 as stated.  For an en to mr request, a provider
returning ASCII-only text is accepted by the live chain, not discarded: no
Devanagari validation exists in translate_with_multiple_variants. -/
theorem chain_accepts_ascii_counterexample :
    translateWithMultipleVariants [asciiProviderStub] "zzxx" "en" "mr" =
        some "good day" ∧
      hasDevanagari "good day" = false := by
  exact ⟨by decide, by decide⟩

/-- C1 amended.  A raw provider result is accepted exactly by the filter
the source applies: it is non-empty, its stripped form differs from the
stripped variant that produced it, and its lowercased text contains none of
the error phrases; no script-based validation (Devanagari presence for a
Marathi target, non-ASCII ratio for an English target) is performed, so an
ASCII-only result for an en to mr request passes. -/
theorem chain_result_passed_filter (providers : List Provider)
    (text src tgt r : String)
    (h : translateWithMultipleVariants providers text src tgt = some r) :
    ∃ v ∈ comprehensiveTransliteration text, acceptsResult v r = true := by
  unfold translateWithMultipleVariants at h
  rcases exists_mem_of_findSome h with ⟨v, hv, htry⟩
  refine ⟨v, hv, ?_⟩
  unfold tryProviders at htry
  rcases exists_mem_of_findSome htry with ⟨m, _, hres⟩
  cases hmv : m v src tgt with
  | none => rw [hmv, Option.none_bind] at hres; exact absurd hres (by simp)
  | some r0 =>
    rw [hmv, Option.some_bind] at hres
    by_cases hacc : acceptsResult v r0 = true
    · rw [if_pos hacc] at hres
      rw [← Option.some_inj.mp hres]
      exact hacc
    · rw [if_neg hacc] at hres
      exact absurd hres (by simp)

/-- Witness for the amended C1: the accepted ASCII result of the stub chain
satisfies the acceptance filter for some variant. -/
theorem chain_result_passed_filter_witness :
    ∃ v ∈ comprehensiveTransliteration "zzxx",
      acceptsResult v "good day" = true :=
  chain_result_passed_filter [asciiProviderStub] "zzxx" "en" "mr" "good day"
    (by decide)

/-- An auto target always resolves to the complement of the resolved
source, hence never equals it. -/
theorem resolveTarget_auto_ne (s : String) : resolveTarget "auto" s ≠ s := by
  unfold resolveTarget
  rw [if_pos rfl]
  by_cases hs : s = "mr"
  · rw [if_pos hs, hs]
    decide
  · rw [if_neg hs]
    exact fun he => hs he.symm

/-- Forward computation of translate on a cache hit. -/
theorem translate_eq_cache (providers : List Provider) (cache : Cache)
    (text srcLang tgtLang v : String) (h : pyStrip text ≠ "")
    (hlk : lookupAssoc cache
      (cacheKey (pyStrip text) (resolveSource srcLang (pyStrip text))
        (resolveTarget tgtLang (resolveSource srcLang (pyStrip text)))) =
      some v) :
    translate providers cache text srcLang tgtLang =
      some ({ translated_text := v,
              source_language := resolveSource srcLang (pyStrip text),
              target_language :=
                resolveTarget tgtLang (resolveSource srcLang (pyStrip text)),
              method := "cache" }, cache) := by
  simp only [translate]
  rw [if_neg h, hlk]

/-- Forward computation of translate on a cache miss and a dictionary hit. -/
theorem translate_eq_dict (providers : List Provider) (cache : Cache)
    (text srcLang tgtLang d : String) (h : pyStrip text ≠ "")
    (hlk : lookupAssoc cache
      (cacheKey (pyStrip text) (resolveSource srcLang (pyStrip text))
        (resolveTarget tgtLang (resolveSource srcLang (pyStrip text)))) = none)
    (hd : translateWithDictionary (pyStrip text)
      (resolveSource srcLang (pyStrip text))
      (resolveTarget tgtLang (resolveSource srcLang (pyStrip text))) = some d) :
    translate providers cache text srcLang tgtLang =
      some ({ translated_text := d,
              source_language := resolveSource srcLang (pyStrip text),
              target_language :=
                resolveTarget tgtLang (resolveSource srcLang (pyStrip text)),
              method := "dictionary" },
            (cacheKey (pyStrip text) (resolveSource srcLang (pyStrip text))
              (resolveTarget tgtLang (resolveSource srcLang (pyStrip text))),
             d) :: cache) := by
  simp only [translate]
  rw [if_neg h, hlk, hd]

/-- Forward computation of translate on cache and dictionary misses and an
accepted provider-chain result. -/
theorem translate_eq_api (providers : List Provider) (cache : Cache)
    (text srcLang tgtLang a : String) (h : pyStrip text ≠ "")
    (hlk : lookupAssoc cache
      (cacheKey (pyStrip text) (resolveSource srcLang (pyStrip text))
        (resolveTarget tgtLang (resolveSource srcLang (pyStrip text)))) = none)
    (hd : translateWithDictionary (pyStrip text)
      (resolveSource srcLang (pyStrip text))
      (resolveTarget tgtLang (resolveSource srcLang (pyStrip text))) = none)
    (hc : translateWithMultipleVariants providers (pyStrip text)
      (resolveSource srcLang (pyStrip text))
      (resolveTarget tgtLang (resolveSource srcLang (pyStrip text))) = some a) :
    translate providers cache text srcLang tgtLang =
      some ({ translated_text := a,
              source_language := resolveSource srcLang (pyStrip text),
              target_language :=
                resolveTarget tgtLang (resolveSource srcLang (pyStrip text)),
              method := "comprehensive_api" },
            (cacheKey (pyStrip text) (resolveSource srcLang (pyStrip text))
              (resolveTarget tgtLang (resolveSource srcLang (pyStrip text))),
             a) :: cache) := by
  simp only [translate]
  rw [if_neg h, hlk, hd, hc]

/-- Forward computation of translate when every tier reports absence. -/
theorem translate_eq_fallback (providers : List Provider) (cache : Cache)
    (text srcLang tgtLang : String) (h : pyStrip text ≠ "")
    (hlk : lookupAssoc cache
      (cacheKey (pyStrip text) (resolveSource srcLang (pyStrip text))
        (resolveTarget tgtLang (resolveSource srcLang (pyStrip text)))) = none)
    (hd : translateWithDictionary (pyStrip text)
      (resolveSource srcLang (pyStrip text))
      (resolveTarget tgtLang (resolveSource srcLang (pyStrip text))) = none)
    (hc : translateWithMultipleVariants providers (pyStrip text)
      (resolveSource srcLang (pyStrip text))
      (resolveTarget tgtLang (resolveSource srcLang (pyStrip text))) = none) :
    translate providers cache text srcLang tgtLang =
      some ({ translated_text := fallbackMessage (pyStrip text),
              source_language := resolveSource srcLang (pyStrip text),
              target_language :=
                resolveTarget tgtLang (resolveSource srcLang (pyStrip text)),
              method := "fallback_message" }, cache) := by
  simp only [translate]
  rw [if_neg h, hlk, hd, hc]

/-- Inversion of translate: a produced result comes from exactly one of the
four branches, with the corresponding facts about the consulted tiers, the
produced fields and the cache effect. -/
theorem translate_inv (providers : List Provider) (cache : Cache)
    (text srcLang tgtLang : String) (r : TransResult) (c : Cache)
    (h : translate providers cache text srcLang tgtLang = some (r, c)) :
    pyStrip text ≠ "" ∧
    r.source_language = resolveSource srcLang (pyStrip text) ∧
    r.target_language =
      resolveTarget tgtLang (resolveSource srcLang (pyStrip text)) ∧
    ((r.method = "cache" ∧ c = cache ∧
        lookupAssoc cache
          (cacheKey (pyStrip text) (resolveSource srcLang (pyStrip text))
            (resolveTarget tgtLang (resolveSource srcLang (pyStrip text)))) =
          some r.translated_text) ∨
     (r.method = "dictionary" ∧
        c = (cacheKey (pyStrip text) (resolveSource srcLang (pyStrip text))
              (resolveTarget tgtLang (resolveSource srcLang (pyStrip text))),
             r.translated_text) :: cache ∧
        lookupAssoc cache
          (cacheKey (pyStrip text) (resolveSource srcLang (pyStrip text))
            (resolveTarget tgtLang (resolveSource srcLang (pyStrip text)))) =
          none ∧
        translateWithDictionary (pyStrip text)
          (resolveSource srcLang (pyStrip text))
          (resolveTarget tgtLang (resolveSource srcLang (pyStrip text))) =
          some r.translated_text) ∨
     (r.method = "comprehensive_api" ∧
        c = (cacheKey (pyStrip text) (resolveSource srcLang (pyStrip text))
              (resolveTarget tgtLang (resolveSource srcLang (pyStrip text))),
             r.translated_text) :: cache ∧
        lookupAssoc cache
          (cacheKey (pyStrip text) (resolveSource srcLang (pyStrip text))
            (resolveTarget tgtLang (resolveSource srcLang (pyStrip text)))) =
          none ∧
        translateWithDictionary (pyStrip text)
          (resolveSource srcLang (pyStrip text))
          (resolveTarget tgtLang (resolveSource srcLang (pyStrip text))) =
          none ∧
        translateWithMultipleVariants providers (pyStrip text)
          (resolveSource srcLang (pyStrip text))
          (resolveTarget tgtLang (resolveSource srcLang (pyStrip text))) =
          some r.translated_text) ∨
     (r.method = "fallback_message" ∧ c = cache ∧
        r.translated_text = fallbackMessage (pyStrip text) ∧
        lookupAssoc cache
          (cacheKey (pyStrip text) (resolveSource srcLang (pyStrip text))
            (resolveTarget tgtLang (resolveSource srcLang (pyStrip text)))) =
          none ∧
        translateWithDictionary (pyStrip text)
          (resolveSource srcLang (pyStrip text))
          (resolveTarget tgtLang (resolveSource srcLang (pyStrip text))) =
          none ∧
        translateWithMultipleVariants providers (pyStrip text)
          (resolveSource srcLang (pyStrip text))
          (resolveTarget tgtLang (resolveSource srcLang (pyStrip text))) =
          none)) := by
  by_cases ht : pyStrip text = ""
  · exfalso
    simp only [translate] at h
    rw [if_pos ht] at h
    exact Option.noConfusion h
  · refine ⟨ht, ?_⟩
    simp only [translate] at h
    rw [if_neg ht] at h
    cases hlk : lookupAssoc cache
        (cacheKey (pyStrip text) (resolveSource srcLang (pyStrip text))
          (resolveTarget tgtLang (resolveSource srcLang (pyStrip text)))) with
    | some v =>
      rw [hlk] at h
      simp only [Option.some.injEq, Prod.mk.injEq] at h
      obtain ⟨hr, hc2⟩ := h
      subst hr
      subst hc2
      exact ⟨rfl, rfl, Or.inl ⟨rfl, rfl, rfl⟩⟩
    | none =>
      rw [hlk] at h
      cases hd : translateWithDictionary (pyStrip text)
          (resolveSource srcLang (pyStrip text))
          (resolveTarget tgtLang (resolveSource srcLang (pyStrip text))) with
      | some d =>
        rw [hd] at h
        simp only [Option.some.injEq, Prod.mk.injEq] at h
        obtain ⟨hr, hc2⟩ := h
        subst hr
        subst hc2
        exact ⟨rfl, rfl, Or.inr (Or.inl ⟨rfl, rfl, rfl, rfl⟩)⟩
      | none =>
        rw [hd] at h
        cases hca : translateWithMultipleVariants providers (pyStrip text)
            (resolveSource srcLang (pyStrip text))
            (resolveTarget tgtLang (resolveSource srcLang (pyStrip text))) with
        | some a =>
          rw [hca] at h
          simp only [Option.some.injEq, Prod.mk.injEq] at h
          obtain ⟨hr, hc2⟩ := h
          subst hr
          subst hc2
          exact ⟨rfl, rfl, Or.inr (Or.inr (Or.inl ⟨rfl, rfl, rfl, rfl, rfl⟩))⟩
        | none =>
          rw [hca] at h
          simp only [Option.some.injEq, Prod.mk.injEq] at h
          obtain ⟨hr, hc2⟩ := h
          subst hr
          subst hc2
          exact ⟨rfl, rfl,
            Or.inr (Or.inr (Or.inr ⟨rfl, rfl, rfl, rfl, rfl, rfl⟩))⟩

/-- Counterexample to C4 as stated.  When every tier is exhausted the
method string the code produces is fallback_message, which is not a member
of the specification set {dictionary, cache, provider:name, fallback}. -/
theorem method_set_counterexample :
    (translate [] [] "zzxx" "en" "mr").map (fun p => p.1.method) =
        some "fallback_message" ∧
      ¬ specMethodOk "fallback_message" := by
  refine ⟨by decide, ?_⟩
  unfold specMethodOk
  decide

/-- C4 amended.  For every input with non-empty stripped text, translate
returns a result (never an exception) whose method is one of dictionary,
cache, comprehensive_api or fallback_message; in particular exhaustion of
all tiers yields a successful response carrying the fallback message with
method fallback_message. -/
theorem translate_total (providers : List Provider) (cache : Cache)
    (text srcLang tgtLang : String) (h : pyStrip text ≠ "") :
    ∃ r c, translate providers cache text srcLang tgtLang = some (r, c) ∧
      (r.method = "dictionary" ∨ r.method = "cache" ∨
        r.method = "comprehensive_api" ∨ r.method = "fallback_message") := by
  cases hlk : lookupAssoc cache
      (cacheKey (pyStrip text) (resolveSource srcLang (pyStrip text))
        (resolveTarget tgtLang (resolveSource srcLang (pyStrip text)))) with
  | some v =>
    exact ⟨_, _, translate_eq_cache providers cache text srcLang tgtLang v h hlk,
      Or.inr (Or.inl rfl)⟩
  | none =>
    cases hd : translateWithDictionary (pyStrip text)
        (resolveSource srcLang (pyStrip text))
        (resolveTarget tgtLang (resolveSource srcLang (pyStrip text))) with
    | some d =>
      exact ⟨_, _, translate_eq_dict providers cache text srcLang tgtLang d h hlk hd,
        Or.inl rfl⟩
    | none =>
      cases hca : translateWithMultipleVariants providers (pyStrip text)
          (resolveSource srcLang (pyStrip text))
          (resolveTarget tgtLang (resolveSource srcLang (pyStrip text))) with
      | some a =>
        exact ⟨_, _, translate_eq_api providers cache text srcLang tgtLang a h hlk hd hca,
          Or.inr (Or.inr (Or.inl rfl))⟩
      | none =>
        exact ⟨_, _, translate_eq_fallback providers cache text srcLang tgtLang h hlk hd hca,
          Or.inr (Or.inr (Or.inr rfl))⟩

/-- Witness for the amended C4 at a concrete unresolvable input. -/
theorem translate_total_witness :
    ∃ r c, translate [] [] "zzxx" "en" "mr" = some (r, c) ∧
      (r.method = "dictionary" ∨ r.method = "cache" ∨
        r.method = "comprehensive_api" ∨ r.method = "fallback_message") :=
  translate_total [] [] "zzxx" "en" "mr" (by decide)

/-- Counterexample to C8 as stated.  A request supplying both languages
explicitly as en resolves to equal source and target languages: the
source-differs-from-target invariant is not enforced for explicit pairs. -/
theorem explicit_equal_pair_counterexample :
    (translate [] [] "hello" "en" "en").map
        (fun p => (p.1.source_language, p.1.target_language)) =
      some ("en", "en") := by
  decide

/-- C8 amended.  Whenever the target language is auto it is fixed as the
complement of the resolved source, so the resolved source and target always
differ; the inequality is not checked for explicitly supplied pairs. -/
theorem auto_target_differs (providers : List Provider) (cache : Cache)
    (text srcLang : String) (r : TransResult) (c : Cache)
    (h : translate providers cache text srcLang "auto" = some (r, c)) :
    r.source_language ≠ r.target_language := by
  obtain ⟨-, hs, hg, -⟩ := translate_inv providers cache text srcLang "auto" r c h
  rw [hs, hg]
  exact fun he => resolveTarget_auto_ne _ he.symm

/-- Witness for the amended C8 at a concrete request with auto target. -/
theorem auto_target_differs_witness :
    ∃ r c, translate [] [] "hello" "en" "auto" = some (r, c) ∧
      r.source_language ≠ r.target_language := by
  have h1 : translate [] [] "hello" "en" "auto" =
      some ({ translated_text := "नमस्कार", source_language := "en",
              target_language := "mr", method := "dictionary" },
            [("hello_en_mr", "नमस्कार")]) := by decide
  exact ⟨_, _, h1, auto_target_differs [] [] "hello" "en" _ _ h1⟩

/-- C9.  Only the dictionary and provider branches write a cache entry: a
call resolving from the cache or ending in the fallback message leaves the
cache unchanged, and a fallback-resolving request is fully recomputed on an
identical subsequent call, producing the same fallback result rather than a
cache hit. -/
theorem fallback_leaves_cache_unchanged (providers : List Provider)
    (cache : Cache) (text srcLang tgtLang : String) (r : TransResult)
    (c : Cache)
    (h : translate providers cache text srcLang tgtLang = some (r, c)) :
    ((r.method = "fallback_message" ∨ r.method = "cache") → c = cache) ∧
    (c ≠ cache → (r.method = "dictionary" ∨ r.method = "comprehensive_api")) ∧
    (r.method = "fallback_message" →
      translate providers c text srcLang tgtLang = some (r, c)) := by
  obtain ⟨ht, hs, hg, hdisj⟩ :=
    translate_inv providers cache text srcLang tgtLang r c h
  rcases hdisj with ⟨hm, hc, -⟩ | ⟨hm, hc, -, -⟩ | ⟨hm, hc, -, -, -⟩ |
    ⟨hm, hc, hft, hlk, hd, hca⟩
  · refine ⟨fun _ => hc, fun hne => absurd hc hne, fun hf => ?_⟩
    rw [hm] at hf
    exact absurd hf (by decide)
  · refine ⟨fun hor => ?_, fun _ => Or.inl hm, fun hf => ?_⟩
    · rcases hor with hf | hf <;> rw [hm] at hf <;> exact absurd hf (by decide)
    · rw [hm] at hf
      exact absurd hf (by decide)
  · refine ⟨fun hor => ?_, fun _ => Or.inr hm, fun hf => ?_⟩
    · rcases hor with hf | hf <;> rw [hm] at hf <;> exact absurd hf (by decide)
    · rw [hm] at hf
      exact absurd hf (by decide)
  · refine ⟨fun _ => hc, fun hne => absurd hc hne, fun _ => ?_⟩
    rw [hc]
    obtain ⟨rt, rs, rg, rm⟩ := r
    simp only at hs hg hm hft
    subst hs
    subst hg
    subst hm
    subst hft
    exact translate_eq_fallback providers cache text srcLang tgtLang ht hlk hd hca

/-- Witness for C9 at a concrete fallback-resolving request. -/
theorem fallback_leaves_cache_unchanged_witness :
    ((("fallback_message" : String) = "fallback_message" ∨
        ("fallback_message" : String) = "cache") → ([] : Cache) = []) ∧
    (([] : Cache) ≠ [] →
      (("fallback_message" : String) = "dictionary" ∨
        ("fallback_message" : String) = "comprehensive_api")) ∧
    (("fallback_message" : String) = "fallback_message" →
      translate [] [] "zzxx" "en" "mr" =
        some ({ translated_text := fallbackMessage "zzxx",
                source_language := "en", target_language := "mr",
                method := "fallback_message" }, [])) :=
  fallback_leaves_cache_unchanged [] [] "zzxx" "en" "mr"
    { translated_text := fallbackMessage "zzxx", source_language := "en",
      target_language := "mr", method := "fallback_message" } []
    (by decide)

/-- Counterexample to C3 as stated.  After a first call that resolved to
the fallback message, the identical second call recomputes and again
returns method fallback_message, not cache. -/
theorem repeat_fallback_not_cache_counterexample :
    ((translate [] [] "zzxx" "en" "mr").bind
        (fun p => translate [] p.2 "zzxx" "en" "mr")).map
        (fun p => p.1.method) = some "fallback_message" ∧
      ("fallback_message" : String) ≠ "cache" := by
  exact ⟨by decide, by decide⟩

/-- C3 amended.  With unchanged provider behavior, a second call with
identical arguments yields the identical translated text; its method is
cache whenever the first call resolved via cache, dictionary or the
provider chain, while a first call that fell back wrote nothing to the
cache, so the second call recomputes and again reports fallback_message. -/
theorem repeat_call_hits_cache (providers : List Provider) (cache : Cache)
    (text srcLang tgtLang : String) (r1 : TransResult) (c1 : Cache)
    (h : translate providers cache text srcLang tgtLang = some (r1, c1)) :
    ∃ r2 c2, translate providers c1 text srcLang tgtLang = some (r2, c2) ∧
      r2.translated_text = r1.translated_text ∧
      (r1.method ≠ "fallback_message" → r2.method = "cache") ∧
      (r1.method = "fallback_message" →
        r2.method = "fallback_message" ∧ c2 = c1) := by
  obtain ⟨ht, hs, hg, hdisj⟩ :=
    translate_inv providers cache text srcLang tgtLang r1 c1 h
  rcases hdisj with ⟨hm, hc, hlk⟩ | ⟨hm, hc, hlk, hd⟩ | ⟨hm, hc, hlk, hd, hca⟩ |
    ⟨hm, hc, hft, hlk, hd, hca⟩
  · refine ⟨_, _, translate_eq_cache providers c1 text srcLang tgtLang
      r1.translated_text ht (by rw [hc]; exact hlk), rfl, fun _ => rfl,
      fun hf => ?_⟩
    rw [hm] at hf
    exact absurd hf (by decide)
  · refine ⟨_, _, translate_eq_cache providers c1 text srcLang tgtLang
      r1.translated_text ht (by rw [hc]; exact lookupAssoc_cons_self _ _ _),
      rfl, fun _ => rfl, fun hf => ?_⟩
    rw [hm] at hf
    exact absurd hf (by decide)
  · refine ⟨_, _, translate_eq_cache providers c1 text srcLang tgtLang
      r1.translated_text ht (by rw [hc]; exact lookupAssoc_cons_self _ _ _),
      rfl, fun _ => rfl, fun hf => ?_⟩
    rw [hm] at hf
    exact absurd hf (by decide)
  · refine ⟨{ translated_text := fallbackMessage (pyStrip text),
              source_language := resolveSource srcLang (pyStrip text),
              target_language :=
                resolveTarget tgtLang (resolveSource srcLang (pyStrip text)),
              method := "fallback_message" }, c1, ?_, hft.symm,
      fun hnf => absurd hm hnf, fun _ => ⟨rfl, rfl⟩⟩
    rw [hc]
    exact translate_eq_fallback providers cache text srcLang tgtLang ht hlk hd hca

/-- Witness for the amended C3 at a concrete dictionary-resolving request:
the second call is a cache hit with the identical translated text. -/
theorem repeat_call_hits_cache_witness :
    ∃ r2 c2, translate [] [("hello_en_mr", "नमस्कार")] "hello" "en" "mr" =
        some (r2, c2) ∧
      r2.translated_text = "नमस्कार" ∧
      (("dictionary" : String) ≠ "fallback_message" → r2.method = "cache") ∧
      (("dictionary" : String) = "fallback_message" →
        r2.method = "fallback_message" ∧ c2 = [("hello_en_mr", "नमस्कार")]) :=
  repeat_call_hits_cache [] [] "hello" "en" "mr"
    { translated_text := "नमस्कार", source_language := "en",
      target_language := "mr", method := "dictionary" }
    [("hello_en_mr", "नमस्कार")] (by decide)

/-- Counterexample to C5 as stated.  The source normalization does not
collapse internal whitespace: a phrase whose collapsed form is a table key
but which contains a double space misses the dictionary tier entirely and
falls through to the provider chain and fallback. -/
theorem whitespace_collapse_counterexample :
    specNormalize "hello  how are you" = "hello how are you" ∧
      lookupAssoc enToMr (specNormalize "hello  how are you") =
        some "नमस्कार तुम्ही कसे आहात" ∧
      (translate [] [] "hello  how are you" "en" "mr").map
        (fun pr => pr.1.method) = some "fallback_message" := by
  exact ⟨by decide, by decide, by decide⟩

/-- C5 amended.  English-to-Marathi normalization is trim plus lowercase
only (no whitespace collapsing): a phrase whose normalized form in that
sense is a table key resolves through the dictionary with the table value,
and any phrase whose normalized form is not a key makes the dictionary tier
return absent, with no partial or word-by-word matching. -/
theorem en_mr_dictionary_exact :
    (∀ (providers : List Provider) (cache : Cache) (p v : String),
        pyStrip p ≠ "" →
        lookupAssoc enToMr (dictNormalize (pyStrip p)) = some v →
        lookupAssoc cache (cacheKey (pyStrip p) "en" "mr") = none →
        translate providers cache p "en" "mr" =
          some ({ translated_text := v, source_language := "en",
                  target_language := "mr", method := "dictionary" },
                (cacheKey (pyStrip p) "en" "mr", v) :: cache)) ∧
    (∀ p : String, lookupAssoc enToMr (dictNormalize p) = none →
        translateWithDictionary p "en" "mr" = none) := by
  constructor
  · intro providers cache p v hne htab hcache
    have hrs : resolveSource "en" (pyStrip p) = "en" := rfl
    have hrt : resolveTarget "mr" "en" = "mr" := rfl
    have hdict : translateWithDictionary (pyStrip p) "en" "mr" = some v := by
      simp only [translateWithDictionary]
      rw [if_pos (show True ∧ True from ⟨trivial, trivial⟩)]
      exact htab
    have h0 := translate_eq_dict providers cache p "en" "mr" v hne
      (by rw [hrs, hrt]; exact hcache) (by rw [hrs, hrt]; exact hdict)
    rw [hrs, hrt] at h0
    exact h0
  · intro p htab
    simp only [translateWithDictionary]
    rw [if_pos (show True ∧ True from ⟨trivial, trivial⟩)]
    exact htab

/-- Witness for the amended C5: the phrase hello resolves through the
dictionary to its table value, and a non-key phrase makes the dictionary
tier return absent. -/
theorem en_mr_dictionary_exact_witness :
    translate [] [] "hello" "en" "mr" =
        some ({ translated_text := "नमस्कार", source_language := "en",
                target_language := "mr", method := "dictionary" },
              [(cacheKey "hello" "en" "mr", "नमस्कार")]) ∧
      translateWithDictionary "zzxx" "en" "mr" = none := by
  constructor
  · have h := en_mr_dictionary_exact.1 [] [] "hello" "नमस्कार" (by decide)
      (by decide) (by decide)
    exact h.trans (by decide)
  · exact en_mr_dictionary_exact.2 "zzxx" (by decide)

/-- C7.  A Marathi-to-English lookup of at least three words that reaches
the word-by-word stage (the garbled guard and all four earlier stages
missed) returns the word-by-word substitution exactly when at least
70 percent of the words were individually resolved; below the threshold the
dictionary tier returns absent. -/
theorem wordbyword_threshold (text : String)
    (hg : garbled text = false)
    (h1 : mrEnExact text = none)
    (h2 : mrEnRomExact (dictNormalize text) = none)
    (h3 : mrEnDevSubphrase text = none)
    (h4 : mrEnRomSubphrase (dictNormalize text) = none)
    (h5 : 3 ≤ (pySplit (dictNormalize text)).length) :
    (7 * (pySplit (dictNormalize text)).length ≤
        10 * (pySplit (dictNormalize text)).countP
          (fun w => (resolveWord w).isSome) →
      translateWithDictionary text "mr" "en" =
        some (String.intercalate " "
          ((pySplit (dictNormalize text)).map
            (fun w => (resolveWord w).getD w)))) ∧
    (10 * (pySplit (dictNormalize text)).countP
        (fun w => (resolveWord w).isSome) <
        7 * (pySplit (dictNormalize text)).length →
      translateWithDictionary text "mr" "en" = none) := by
  have hbranch : translateWithDictionary text "mr" "en" =
      mrEnWordByWord (dictNormalize text) := by
    simp only [translateWithDictionary]
    rw [if_neg (by rintro ⟨hx, -⟩; exact absurd hx (by decide)),
      if_pos (show True ∧ True from ⟨trivial, trivial⟩),
      if_neg (by simp [hg]), h1, h2, h3, h4]
    rfl
  constructor
  · intro hge
    have hfound : 0 < (pySplit (dictNormalize text)).countP
        (fun w => (resolveWord w).isSome) := by omega
    rw [hbranch]
    simp only [mrEnWordByWord]
    rw [if_pos h5, if_pos]
    rw [Bool.and_eq_true]
    exact ⟨decide_eq_true hfound, decide_eq_true hge⟩
  · intro hlt
    rw [hbranch]
    simp only [mrEnWordByWord]
    rw [if_pos h5,
      if_neg (fun hcond =>
        absurd (of_decide_eq_true (Bool.and_eq_true _ _ ▸ hcond).2)
          (Nat.not_le.mpr hlt))]

/-- Witness for C7 at a three-word romanized phrase all of whose words
resolve, passing the 70 percent threshold. -/
theorem wordbyword_threshold_witness :
    translateWithDictionary "pani anna madad" "mr" "en" =
      some "water food help" := by
  have h := (wordbyword_threshold "pani anna madad" (by decide) (by decide)
    (by decide) (by decide) (by decide) (by decide)).1 (by decide)
  exact h.trans (by decide)

end ShabdSetu
